import Mathlib

/-!
Verification of the struct-metadata type-description library.

The library exposes a reflection facility: a `Described` trait whose
`metadata()` method returns a `Descriptor<M>` tree describing the shape of a
type, generic over a caller-chosen metadata payload type `M` with a default.
We embed the data model (`Kind`, `Entry`, `Descriptor`) and the `Described`
implementations for the primitives (`bool`, `u64`, `String`, `f32`) and for
the nalgebra integration (`Matrix`, `Vector3`, `Rotation3`, `Isometry3`) as
pure Lean functions, and prove the spec claims about the trees they build.

The `Described` trait method `fn metadata() -> Descriptor<M>` takes no
arguments; an implementation for a concrete type is therefore a single
`Descriptor<M>` value.  Generic implementations (for `Matrix<T, R, C, S>`
etc., which require `T: Described<M>`) become Lean functions taking the
element descriptor `T::metadata()` as an argument, together with the
metadata type `M` and its default value `M::default()`.
-/

namespace StructMetadata

mutual

/-- Shape algebra of the library (Rust `enum Kind` in src/lib.rs plus the
variants used by src/nalgebra/mod.rs and the test suite).

Modelled from the spec: the `Sequence` and `F32` variants are absent from
the `Kind` declaration in the src snapshot of lib.rs but are constructed by
src/nalgebra/mod.rs (`Kind::Sequence(Box::new(...))`) and matched by the
tests (`Kind::F32`); the spec lists `Sequence(kind)` as an exclusively-owned
pointer to the element's `Descriptor` and floating point among the primitive
leaves.  Boxes are heap indirection only, so `Box<Descriptor>` embeds as a
nested `Descriptor`. -/
inductive Kind (M : Type) : Type where
  | Struct : String → List (Entry M) → Kind M
  | Aliased : String → Descriptor M → Kind M
  | Bool : Kind M
  | U64 : Kind M
  | String : Kind M
  | Sequence : Descriptor M → Kind M
  | F32 : Kind M

/-- One field of a `Struct` (Rust `struct Entry`): label, optional docs,
metadata payload, recursively built descriptor of the field's type.

Modelled from the spec: the src snapshot of lib.rs declares `Entry` with a
fixed `HashMap` metadata type and without the `has_default` and `aliases`
fields, yet src/nalgebra/mod.rs constructs `Entry` with `metadata:
M::default()` and with both extra fields; the spec says each child carries
"the payload of type `M`" and treats `has_default`/`aliases` as optional
extensions, so `Entry` is embedded generically with both fields. -/
inductive Entry (M : Type) : Type where
  | mk : String → Option (List String) → M → Descriptor M → Bool → List String → Entry M

/-- The universal node (Rust `struct Descriptor<Metadata>`): optional docs,
metadata payload of type `M`, and a `Kind`. -/
inductive Descriptor (M : Type) : Type where
  | mk : Option (List String) → M → Kind M → Descriptor M

end

/-- Field projection: `Descriptor.docs`. -/
def Descriptor.docs {M : Type} : Descriptor M → Option (List String)
  | .mk d _ _ => d

/-- Field projection: `Descriptor.metadata`. -/
def Descriptor.metadata {M : Type} : Descriptor M → M
  | .mk _ m _ => m

/-- Field projection: `Descriptor.kind`. -/
def Descriptor.kind {M : Type} : Descriptor M → Kind M
  | .mk _ _ k => k

/-- Field projection: `Entry.label`. -/
def Entry.label {M : Type} : Entry M → String
  | .mk l _ _ _ _ _ => l

/-- Field projection: `Entry.docs`. -/
def Entry.docs {M : Type} : Entry M → Option (List String)
  | .mk _ d _ _ _ _ => d

/-- Field projection: `Entry.metadata`. -/
def Entry.metadata {M : Type} : Entry M → M
  | .mk _ _ m _ _ _ => m

/-- Field projection: `Entry.type_info`. -/
def Entry.type_info {M : Type} : Entry M → Descriptor M
  | .mk _ _ _ t _ _ => t

/-- Field projection: `Entry.has_default`. -/
def Entry.has_default {M : Type} : Entry M → Bool
  | .mk _ _ _ _ h _ => h

/-- Field projection: `Entry.aliases`. -/
def Entry.aliases {M : Type} : Entry M → List String
  | .mk _ _ _ _ _ a => a

/-- Alias for the builtin Bool, usable inside the Kind namespace where the
name Bool refers to the constructor. -/
abbrev BoolT := Bool

/-- Alias for the builtin String, usable inside the Kind namespace where the
name String refers to the constructor. -/
abbrev StringT := String

/-- Discriminator: is this kind a `Sequence`? -/
def Kind.isSequence {M : Type} : Kind M → BoolT
  | .Sequence _ => true
  | _ => false

/-- Element descriptor of a `Sequence` kind, if any. -/
def Kind.sequenceElem {M : Type} : Kind M → Option (Descriptor M)
  | .Sequence d => some d
  | _ => none

/-- Name of a `Struct` kind, if any. -/
def Kind.structName {M : Type} : Kind M → Option StringT
  | .Struct n _ => some n
  | _ => none

/-- Children of a `Struct` kind (empty list otherwise). -/
def Kind.structChildren {M : Type} : Kind M → List (Entry M)
  | .Struct _ cs => cs
  | _ => []

/-- Number of `Sequence` wrappers at the root of a descriptor. -/
def Descriptor.seqDepth {M : Type} : Descriptor M → Nat
  | .mk _ _ (.Sequence d) => Descriptor.seqDepth d + 1
  | _ => 0

/-- The `Described<M>` implementation for `bool` (src/lib.rs):
`Descriptor { docs: None, metadata: Default::default(), kind: Kind::Bool }`.
`dflt` stands for `M::default()`. -/
def boolMetadata (M : Type) (dflt : M) : Descriptor M :=
  .mk none dflt .Bool

/-- The `Described<M>` implementation for `u64` (src/lib.rs):
`Descriptor { docs: None, metadata: Default::default(), kind: Kind::U64 }`. -/
def u64Metadata (M : Type) (dflt : M) : Descriptor M :=
  .mk none dflt .U64

/-- The `Described<M>` implementation for `String` (src/lib.rs):
`Descriptor { docs: None, metadata: Default::default(), kind: Kind::String }`. -/
def stringMetadata (M : Type) (dflt : M) : Descriptor M :=
  .mk none dflt .String

/-- Modelled from the spec: the `Described<M>` implementation for `f32` is
not in the src snapshot, but the test suite relies on it
(`Matrix3::<f32>::metadata()` with inner kind `Kind::F32`); the spec says a
primitive's descriptor always has `docs = absent` and
`metadata = M::default()`, with shape alone identifying the primitive. -/
def f32Metadata (M : Type) (dflt : M) : Descriptor M :=
  .mk none dflt .F32

/-- The `Described<M>` implementation for `Matrix<T, R, C, S>`
(src/nalgebra/mod.rs).  `R` and `C` mirror the row/column dimension type
parameters, which the implementation never uses; `tDesc` stands for the
element's `T::metadata()` and `dflt` for `M::default()`. -/
def Matrix.metadata (M : Type) (_R _C : Nat) (dflt : M) (tDesc : Descriptor M) :
    Descriptor M :=
  .mk (some ["A matrix from nalgebra"]) dflt (.Sequence tDesc)

/-- The `Described<M>` implementation for `Vector3<T>`: `Vector3<T>` is the
type alias `Matrix<T, Const<3>, Const<1>, ArrayStorage<T, 3, 1>>`, so its
description comes from the `Matrix` implementation. -/
def Vector3.metadata (M : Type) (dflt : M) (tDesc : Descriptor M) :
    Descriptor M :=
  Matrix.metadata M 3 1 dflt tDesc

/-- The `Described<M>` implementation for `Rotation3<T>`
(src/nalgebra/mod.rs): a sequence whose element is the 3x3 matrix
descriptor `Matrix::<T, Const<3>, Const<3>, ArrayStorage<T, 3, 3>>::metadata()`. -/
def Rotation3.metadata (M : Type) (dflt : M) (tDesc : Descriptor M) :
    Descriptor M :=
  .mk (some ["A 3D rotation matrix from nalgebra"]) dflt
    (.Sequence (Matrix.metadata M 3 3 dflt tDesc))

/-- The `Described<M>` implementation for `Isometry3<T>`
(src/nalgebra/mod.rs): a struct named "Isometry3" with a rotation entry
(described through `Rotation3::<T>::metadata()`) and a translation entry
(described through `Vector3::<T>::metadata()`). -/
def Isometry3.metadata (M : Type) (dflt : M) (tDesc : Descriptor M) :
    Descriptor M :=
  .mk (some ["A 3D isometry from nalgebra"]) dflt
    (.Struct "Isometry3"
      [ .mk "rotation" (some ["The rotation component of the isometry"]) dflt
          (Rotation3.metadata M dflt tDesc) false [],
        .mk "translation" (some ["The translation component of the isometry"]) dflt
          (Vector3.metadata M dflt tDesc) false [] ])

/-- Metadata- and docs-erased shape of a descriptor tree: the `Kind`
structure with labels and names, but with the `metadata` payloads and the
documentation stripped at every node. -/
inductive Shape : Type where
  | Struct : String → List (String × Shape) → Shape
  | Aliased : String → Shape → Shape
  | Bool : Shape
  | U64 : Shape
  | String : Shape
  | Sequence : Shape → Shape
  | F32 : Shape

mutual

/-- Shape erasure of a descriptor: drop docs and metadata everywhere. -/
def Descriptor.shape {M : Type} : Descriptor M → Shape
  | .mk _ _ k => Kind.shape k

/-- Shape erasure of a kind. -/
def Kind.shape {M : Type} : Kind M → Shape
  | .Struct n cs => .Struct n (entriesShape cs)
  | .Aliased n d => .Aliased n (Descriptor.shape d)
  | .Bool => .Bool
  | .U64 => .U64
  | .String => .String
  | .Sequence d => .Sequence (Descriptor.shape d)
  | .F32 => .F32

/-- Shape erasure of a struct's children: keep each label with the shape of
its field's type. -/
def entriesShape {M : Type} : List (Entry M) → List (StringT × Shape)
  | [] => []
  | .mk l _ _ t _ _ :: es => (l, Descriptor.shape t) :: entriesShape es

end

mutual

/-- All metadata payloads stored in a descriptor tree, in preorder. -/
def Descriptor.metadataList {M : Type} : Descriptor M → List M
  | .mk _ m k => m :: Kind.metadataList k

/-- All metadata payloads stored below a kind, in preorder. -/
def Kind.metadataList {M : Type} : Kind M → List M
  | .Struct _ cs => entriesMetadataList cs
  | .Aliased _ d => Descriptor.metadataList d
  | .Sequence d => Descriptor.metadataList d
  | _ => []

/-- All metadata payloads stored in a list of struct children, in preorder:
each entry's own payload followed by the payloads of its field's tree. -/
def entriesMetadataList {M : Type} : List (Entry M) → List M
  | [] => []
  | .mk _ _ m t _ _ :: es =>
      m :: (Descriptor.metadataList t ++ entriesMetadataList es)

end

/-- Claim C1: the `Kind` tagged union has a homogeneous-sequence variant
`Sequence` carrying the exclusively-owned `Descriptor` of the element type,
so a descriptor whose kind is a sequence (such as the Matrix descriptor,
whose kind is `Sequence(Box::new(T::metadata()))`) recursively contains the
element's full descriptor. -/
theorem C1_sequence_variant_carries_element (M : Type) (R C : Nat)
    (dflt : M) (tDesc : Descriptor M) :
    (Kind.Sequence tDesc).sequenceElem = some tDesc ∧
    (Matrix.metadata M R C dflt tDesc).kind = Kind.Sequence tDesc ∧
    (Matrix.metadata M R C dflt tDesc).kind.sequenceElem = some tDesc :=
  ⟨rfl, rfl, rfl⟩

/-- Claim C2: every `Entry` of a struct descriptor carries a metadata
payload of the same caller-chosen type `M` as the enclosing
`Descriptor<M>`, and a `type_info` of type `Descriptor<M>`: in the tree
built by `Isometry3::<T>::metadata::<M>()` the two children's payloads are
the `M`-value `M::default()`, and every payload anywhere in the tree is
either `M::default()` or comes from the element sub-tree `T::metadata()`
built with the same `M` — the whole tree uses the `M` chosen at the call
site. -/
theorem C2_entry_metadata_same_type (M : Type) (dflt : M) (tDesc : Descriptor M) :
    ((Isometry3.metadata M dflt tDesc).kind.structChildren.map Entry.metadata)
      = [dflt, dflt] ∧
    ((Isometry3.metadata M dflt tDesc).kind.structChildren.map
        (fun e => e.type_info.metadata)) = [dflt, dflt] ∧
    (Isometry3.metadata M dflt tDesc).metadataList =
      [dflt, dflt, dflt, dflt] ++ tDesc.metadataList
        ++ [dflt, dflt] ++ tDesc.metadataList := by
  refine ⟨rfl, rfl, ?_⟩
  simp [Isometry3.metadata, Rotation3.metadata, Vector3.metadata, Matrix.metadata,
    Descriptor.metadataList, Kind.metadataList, entriesMetadataList]

/-- Claim C3 fails on the code: describing a 3x3 matrix of f32 yields a
single `Sequence` wrapper directly around the `F32` leaf — kind is
`Sequence(F32)`, not the two nested wrappers `Sequence(Sequence(F32))`
the claim requires for a 2-dimensional container; the repository's own
test `matrix3_metadata` asserts exactly this single-wrapper shape. -/
theorem C3_counterexample :
    (Matrix.metadata Unit 3 3 () (f32Metadata Unit ())).kind
      = Kind.Sequence (Descriptor.mk none () Kind.F32) ∧
    ((Matrix.metadata Unit 3 3 () (f32Metadata Unit ())).kind.sequenceElem.map
        (fun d => d.kind.isSequence)) = some false ∧
    (Matrix.metadata Unit 3 3 () (f32Metadata Unit ())).seqDepth = 1 :=
  ⟨rfl, rfl, rfl⟩

/-- Claim C3 (amended): each sequence-described container contributes
exactly one `Sequence` wrapper per `Described` implementation, not one per
dimension: `Matrix` (any row/column dimensions, so a 3x3 matrix included)
wraps the element descriptor in a single `Sequence`, raising the sequence
depth by one, while `Rotation3`, described as a sequence whose element is
the 3x3 matrix descriptor, raises it by two. -/
theorem C3_amended_sequence_depth (M : Type) (R C : Nat) (dflt : M)
    (tDesc : Descriptor M) :
    (Matrix.metadata M R C dflt tDesc).kind = Kind.Sequence tDesc ∧
    (Matrix.metadata M R C dflt tDesc).seqDepth = tDesc.seqDepth + 1 ∧
    (Rotation3.metadata M dflt tDesc).kind
      = Kind.Sequence (Matrix.metadata M 3 3 dflt tDesc) ∧
    (Rotation3.metadata M dflt tDesc).seqDepth = tDesc.seqDepth + 2 :=
  ⟨rfl, rfl, rfl, rfl⟩

/-- Claim C4: for every built-in primitive type (`bool`, `u64`, `String`)
and every metadata type `M` with a default, `metadata::<M>()` returns a
descriptor whose kind is the matching primitive variant, whose docs is
`None`, and whose metadata equals `M::default()`. -/
theorem C4_primitive_totality (M : Type) (dflt : M) :
    ((boolMetadata M dflt).docs = none ∧
      (boolMetadata M dflt).metadata = dflt ∧
      (boolMetadata M dflt).kind = Kind.Bool) ∧
    ((u64Metadata M dflt).docs = none ∧
      (u64Metadata M dflt).metadata = dflt ∧
      (u64Metadata M dflt).kind = Kind.U64) ∧
    ((stringMetadata M dflt).docs = none ∧
      (stringMetadata M dflt).metadata = dflt ∧
      (stringMetadata M dflt).kind = Kind.String) :=
  ⟨⟨rfl, rfl, rfl⟩, ⟨rfl, rfl, rfl⟩, ⟨rfl, rfl, rfl⟩⟩

/-- Claim C5: describing the isometry composite yields kind `Struct` with
name "Isometry3" and exactly two children in declaration order, the first
labelled "rotation" and the second "translation", each with a `Sequence`
kind in its `type_info`. -/
theorem C5_isometry_struct_children (M : Type) (dflt : M) (tDesc : Descriptor M) :
    (Isometry3.metadata M dflt tDesc).kind.structName = some "Isometry3" ∧
    ((Isometry3.metadata M dflt tDesc).kind.structChildren.map Entry.label)
      = ["rotation", "translation"] ∧
    ((Isometry3.metadata M dflt tDesc).kind.structChildren.map
        (fun e => e.type_info.kind.isSequence)) = [true, true] :=
  ⟨rfl, rfl, rfl⟩

/-- Claim C6: describing a 3-row-3-column matrix of f32 yields a top-level
descriptor with docs `["A matrix from nalgebra"]` and kind `Sequence(d)`
where `d` is the f32 descriptor, whose kind is the `F32` primitive
variant. -/
theorem C6_matrix3_descriptor (M : Type) (dflt : M) :
    (Matrix.metadata M 3 3 dflt (f32Metadata M dflt)).docs
      = some ["A matrix from nalgebra"] ∧
    (Matrix.metadata M 3 3 dflt (f32Metadata M dflt)).kind
      = Kind.Sequence (f32Metadata M dflt) ∧
    (f32Metadata M dflt).kind = Kind.F32 :=
  ⟨rfl, rfl, rfl⟩

/-- Claim C7: for every described type, the metadata/docs-erased shape of
the tree returned with metadata type `M₁` is identical to the one returned
with metadata type `M₂`; for the generic container implementations this
holds whenever the element descriptors supplied by `T::metadata()` have
equal shapes.  The choice of metadata type never affects structural
shape. -/
theorem C7_shape_independent_of_metadata (M₁ M₂ : Type) (d₁ : M₁) (d₂ : M₂)
    (t₁ : Descriptor M₁) (t₂ : Descriptor M₂) (h : t₁.shape = t₂.shape) :
    (boolMetadata M₁ d₁).shape = (boolMetadata M₂ d₂).shape ∧
    (u64Metadata M₁ d₁).shape = (u64Metadata M₂ d₂).shape ∧
    (stringMetadata M₁ d₁).shape = (stringMetadata M₂ d₂).shape ∧
    (f32Metadata M₁ d₁).shape = (f32Metadata M₂ d₂).shape ∧
    (∀ R C, (Matrix.metadata M₁ R C d₁ t₁).shape
      = (Matrix.metadata M₂ R C d₂ t₂).shape) ∧
    (Rotation3.metadata M₁ d₁ t₁).shape = (Rotation3.metadata M₂ d₂ t₂).shape ∧
    (Isometry3.metadata M₁ d₁ t₁).shape = (Isometry3.metadata M₂ d₂ t₂).shape := by
  refine ⟨rfl, rfl, rfl, rfl, ?_, ?_, ?_⟩ <;>
    simp [Isometry3.metadata, Rotation3.metadata, Vector3.metadata, Matrix.metadata,
      Descriptor.shape, Kind.shape, entriesShape, h]

/-- Claim C7 witness: at the concrete metadata types `Unit` and `Bool` with
the f32 element descriptor on each side, the hypothesis (equal element
shapes) holds and the isometry trees have identical shapes. -/
theorem C7_shape_independent_witness :
    (f32Metadata Unit ()).shape = (f32Metadata Bool false).shape ∧
    (Isometry3.metadata Unit () (f32Metadata Unit ())).shape
      = (Isometry3.metadata Bool false (f32Metadata Bool false)).shape :=
  ⟨rfl, (C7_shape_independent_of_metadata Unit Bool () false
    (f32Metadata Unit ()) (f32Metadata Bool false) rfl).2.2.2.2.2.2⟩

/-- Claim C8: `metadata()` is pure and deterministic: the tree returned by
`Isometry3::<T>::metadata::<M>()` is a single explicit value completely
determined by `M`, `M::default()` and the element descriptor
`T::metadata()`, so any two calls with the same `M` yield structurally
equal descriptor trees and there is no observable side effect in the
embedding. -/
theorem C8_metadata_pure_deterministic (M : Type) (dflt : M) (tDesc : Descriptor M) :
    Isometry3.metadata M dflt tDesc =
      Descriptor.mk (some ["A 3D isometry from nalgebra"]) dflt
        (Kind.Struct "Isometry3"
          [ Entry.mk "rotation" (some ["The rotation component of the isometry"])
              dflt
              (Descriptor.mk (some ["A 3D rotation matrix from nalgebra"]) dflt
                (Kind.Sequence (Descriptor.mk (some ["A matrix from nalgebra"])
                  dflt (Kind.Sequence tDesc)))) false [],
            Entry.mk "translation"
              (some ["The translation component of the isometry"]) dflt
              (Descriptor.mk (some ["A matrix from nalgebra"]) dflt
                (Kind.Sequence tDesc)) false [] ]) :=
  rfl

/-- Claim C9: for every element type and metadata type, the `Rotation3`
descriptor has docs `["A 3D rotation matrix from nalgebra"]` and kind
`Sequence(d)` where `d` is the full 3x3 `Matrix` descriptor carrying the
matrix's own fixed docs `["A matrix from nalgebra"]` and itself wrapping
the element descriptor in a second `Sequence` layer. -/
theorem C9_rotation3_nested_matrix (M : Type) (dflt : M) (tDesc : Descriptor M) :
    (Rotation3.metadata M dflt tDesc).docs
      = some ["A 3D rotation matrix from nalgebra"] ∧
    (Rotation3.metadata M dflt tDesc).kind
      = Kind.Sequence (Matrix.metadata M 3 3 dflt tDesc) ∧
    (Matrix.metadata M 3 3 dflt tDesc).docs = some ["A matrix from nalgebra"] ∧
    (Matrix.metadata M 3 3 dflt tDesc).kind = Kind.Sequence tDesc :=
  ⟨rfl, rfl, rfl, rfl⟩

/-- Claim C10: in `Isometry3::<T>::metadata::<M>()`, both children carry
metadata `M::default()` (no field-level override) and the fixed docs
`["The rotation component of the isometry"]` and
`["The translation component of the isometry"]` respectively. -/
theorem C10_isometry_children_metadata_docs (M : Type) (dflt : M)
    (tDesc : Descriptor M) :
    ((Isometry3.metadata M dflt tDesc).kind.structChildren.map Entry.metadata)
      = [dflt, dflt] ∧
    ((Isometry3.metadata M dflt tDesc).kind.structChildren.map Entry.docs)
      = [some ["The rotation component of the isometry"],
         some ["The translation component of the isometry"]] :=
  ⟨rfl, rfl⟩

end StructMetadata
